import Mathlib

/-!
Verification of the segment-intersection core of the repository
(src/docs/js/utils/mathy.js, class Mathy) against its specification.

The two static methods of Mathy are embedded as pure functions over the
rationals: coordinates are exact numbers, and division is exact. The
JavaScript guard
  t >= 0 && t <= 1 && u >= 0 && u <= 1 && tDivider !== 0
is carried over verbatim. In JavaScript a zero divider makes t or u an
infinity or NaN, which fails the range comparisons; in the rational
embedding division by zero yields 0, but the explicit tDivider test in
the same conjunction makes the overall guard agree with the source on
every input, because uDivider coincides with tDivider (proved below as
uDivider_eq_tDivider), so the only divider that can vanish is the one
the guard checks.
-/

namespace SegmentIntersection

/-- A 2D point with exact rational coordinates, mirroring the
objects with numeric x and y fields used by the source. -/
structure Point where
  x : ℚ
  y : ℚ
deriving DecidableEq

/-- A segment is an ordered pair of endpoints; the source passes each
segment as a two-element array, indexed 0 and 1. -/
abbrev Segment := Point × Point

/-- Linear interpolation, from Mathy.lerp: A + (B - A) * t. -/
def lerp (A B t : ℚ) : ℚ :=
  A + (B - A) * t

/-- Numerator of t, transcribed from the tNumerator constant in
Mathy.calculateIntersection. -/
def tNumerator (AB CD : Segment) : ℚ :=
  let AX := AB.1.x
  let AY := AB.1.y
  let CX := CD.1.x
  let CY := CD.1.y
  let DX := CD.2.x
  let DY := CD.2.y
  AY * DX - CY * DX - AY * CX + CY * CX - AX * DY + CX * DY + AX * CY - CX * CY

/-- Denominator of t, transcribed from the tDivider constant in
Mathy.calculateIntersection. -/
def tDivider (AB CD : Segment) : ℚ :=
  let AX := AB.1.x
  let AY := AB.1.y
  let BX := AB.2.x
  let BY := AB.2.y
  let CX := CD.1.x
  let CY := CD.1.y
  let DX := CD.2.x
  let DY := CD.2.y
  BX * DY - AX * DY - BX * CY + AX * CY - BY * DX + AY * DX + BY * CX - AY * CX

/-- Numerator of u, transcribed from the uNumerator constant in
Mathy.calculateIntersection. -/
def uNumerator (AB CD : Segment) : ℚ :=
  let AX := AB.1.x
  let AY := AB.1.y
  let BX := AB.2.x
  let BY := AB.2.y
  let CX := CD.1.x
  let CY := CD.1.y
  CX * BY - AX * BY - CX * AY + AX * AY - CY * BX + AY * BX + CY * AX - AY * AX

/-- Denominator of u, transcribed from the uDivider constant in
Mathy.calculateIntersection. -/
def uDivider (AB CD : Segment) : ℚ :=
  let AX := AB.1.x
  let AY := AB.1.y
  let BX := AB.2.x
  let BY := AB.2.y
  let CX := CD.1.x
  let CY := CD.1.y
  let DX := CD.2.x
  let DY := CD.2.y
  DY * BX - CY * BX - DY * AX + CY * AX - DX * BY + CX * BY + DX * AY - CX * AY

/-- Mathy.calculateIntersection over exact arithmetic. The guard is the
source condition in source order; on acceptance the point is built by
interpolating along AB with t, exactly as in the source. -/
def calculateIntersection (AB CD : Segment) : Option Point :=
  let t := tNumerator AB CD / tDivider AB CD
  let u := uNumerator AB CD / uDivider AB CD
  if 0 ≤ t ∧ t ≤ 1 ∧ 0 ≤ u ∧ u ≤ 1 ∧ tDivider AB CD ≠ 0 then
    some { x := lerp AB.1.x AB.2.x t, y := lerp AB.1.y AB.2.y t }
  else
    none

/-- Transcription of the tNumerator line of the formula block in
section 4.1 of the specification, written from the words of the spec in
order to compare it with the definition taken from the source. -/
def specTNumerator (AB CD : Segment) : ℚ :=
  let AX := AB.1.x
  let AY := AB.1.y
  let CX := CD.1.x
  let CY := CD.1.y
  let DX := CD.2.x
  let DY := CD.2.y
  AY * DX - CY * DX - AY * CX + CY * CX - AX * DY + CX * DY + AX * CY - CX * CY

/-- Transcription of the tDivider line of the formula block in
section 4.1 of the specification. -/
def specTDivider (AB CD : Segment) : ℚ :=
  let AX := AB.1.x
  let AY := AB.1.y
  let BX := AB.2.x
  let BY := AB.2.y
  let CX := CD.1.x
  let CY := CD.1.y
  let DX := CD.2.x
  let DY := CD.2.y
  BX * DY - AX * DY - BX * CY + AX * CY - BY * DX + AY * DX + BY * CX - AY * CX

/-- Transcription of the uNumerator line of the formula block in
section 4.1 of the specification. -/
def specUNumerator (AB CD : Segment) : ℚ :=
  let AX := AB.1.x
  let AY := AB.1.y
  let BX := AB.2.x
  let BY := AB.2.y
  let CX := CD.1.x
  let CY := CD.1.y
  CX * BY - AX * BY - CX * AY + AX * AY - CY * BX + AY * BX + CY * AX - AY * AX

/-- Transcription of the uDivider line of the formula block in
section 4.1 of the specification. -/
def specUDivider (AB CD : Segment) : ℚ :=
  let AX := AB.1.x
  let AY := AB.1.y
  let BX := AB.2.x
  let BY := AB.2.y
  let CX := CD.1.x
  let CY := CD.1.y
  let DX := CD.2.x
  let DY := CD.2.y
  DY * BX - CY * BX - DY * AX + CY * AX - DX * BY + CX * BY + DX * AY - CX * AY

/-- The intersect contract of section 4.1 of the specification, written
from the words of the spec: a zero tDivider yields none outright;
otherwise the intersection is reported exactly when t and u lie in the
inclusive unit interval, and the returned point interpolates along AB
with t. -/
def specCalculateIntersection (AB CD : Segment) : Option Point :=
  let t := specTNumerator AB CD / specTDivider AB CD
  let u := specUNumerator AB CD / specUDivider AB CD
  if specTDivider AB CD = 0 then
    none
  else if 0 ≤ t ∧ t ≤ 1 ∧ 0 ≤ u ∧ u ≤ 1 then
    some { x := lerp AB.1.x AB.2.x t, y := lerp AB.1.y AB.2.y t }
  else
    none

/-- The uDivider expression of the source is the same sum of eight
signed products as its tDivider expression. -/
lemma uDivider_eq_tDivider (AB CD : Segment) : uDivider AB CD = tDivider AB CD := by
  simp only [uDivider, tDivider]
  ring

/-- Inversion principle for the embedded calculateIntersection: it
returns some p exactly when the source guard holds and p is the point
interpolated along AB with t. -/
lemma calculateIntersection_eq_some_iff (AB CD : Segment) (p : Point) :
    calculateIntersection AB CD = some p ↔
      (0 ≤ tNumerator AB CD / tDivider AB CD ∧ tNumerator AB CD / tDivider AB CD ≤ 1 ∧
        0 ≤ uNumerator AB CD / uDivider AB CD ∧ uNumerator AB CD / uDivider AB CD ≤ 1 ∧
        tDivider AB CD ≠ 0) ∧
      p = ⟨lerp AB.1.x AB.2.x (tNumerator AB CD / tDivider AB CD),
           lerp AB.1.y AB.2.y (tNumerator AB CD / tDivider AB CD)⟩ := by
  simp only [calculateIntersection]
  split
  · next hc => simp [hc, eq_comm]
  · next hc => simp [hc]

/-- C1: calculateIntersection returns a point rather than none exactly
when tDivider is nonzero and both parametric coefficients t and u lie
in the unit interval, with inclusive boundaries; in particular, for the
segments AB = (0,0)-(10,10) and CD = (10,10)-(20,0), which share the
single endpoint (10,10), that shared point is returned because the
boundary values t = 1 and u = 0 pass the inclusive range check. -/
theorem intersection_reported_iff_guard_inclusive :
    (∀ AB CD : Segment,
      (calculateIntersection AB CD).isSome ↔
        tDivider AB CD ≠ 0 ∧
          0 ≤ tNumerator AB CD / tDivider AB CD ∧ tNumerator AB CD / tDivider AB CD ≤ 1 ∧
          0 ≤ uNumerator AB CD / uDivider AB CD ∧ uNumerator AB CD / uDivider AB CD ≤ 1) ∧
    calculateIntersection (⟨0, 0⟩, ⟨10, 10⟩) (⟨10, 10⟩, ⟨20, 0⟩) = some ⟨10, 10⟩ := by
  constructor
  · intro AB CD
    simp only [calculateIntersection]
    split
    · next hc =>
      simp only [Option.isSome_some, true_iff]
      tauto
    · next hc =>
      simp only [Option.isSome_none, Bool.false_eq_true, false_iff]
      tauto
  · norm_num [calculateIntersection, tNumerator, tDivider, uNumerator, uDivider, lerp]

/-- C2: whenever tDivider is zero, calculateIntersection returns none,
regardless of the computed t and u values, because the guard contains an
explicit zero test on the divider. -/
theorem tDivider_zero_returns_none (AB CD : Segment) (h : tDivider AB CD = 0) :
    calculateIntersection AB CD = none := by
  simp [calculateIntersection, h]

/-- Witness for C2: for the parallel non-collinear segments
AB = (0,0)-(10,0) and CD = (0,5)-(10,5) the divider is zero and the
result is none. -/
theorem tDivider_zero_returns_none_witness :
    tDivider (⟨0, 0⟩, ⟨10, 0⟩) (⟨0, 5⟩, ⟨10, 5⟩) = 0 ∧
    calculateIntersection (⟨0, 0⟩, ⟨10, 0⟩) (⟨0, 5⟩, ⟨10, 5⟩) = none := by
  have h : tDivider (⟨0, 0⟩, ⟨10, 0⟩) (⟨0, 5⟩, ⟨10, 5⟩) = 0 := by
    norm_num [tDivider]
  exact ⟨h, tDivider_zero_returns_none _ _ h⟩

/-- C3: the four eight-term polynomial expressions computed by
calculateIntersection coincide with the four expressions of the formula
block of section 4.1 of the specification, and the whole function
refines the spec contract that computes t and u as the corresponding
quotients. -/
theorem formulas_match_spec_block (AB CD : Segment) :
    tNumerator AB CD = specTNumerator AB CD ∧
    tDivider AB CD = specTDivider AB CD ∧
    uNumerator AB CD = specUNumerator AB CD ∧
    uDivider AB CD = specUDivider AB CD ∧
    calculateIntersection AB CD = specCalculateIntersection AB CD := by
  refine ⟨rfl, rfl, rfl, rfl, ?_⟩
  by_cases hd : tDivider AB CD = 0
  · have hd' : specTDivider AB CD = 0 := hd
    simp [calculateIntersection, specCalculateIntersection, hd, hd']
  · have hd' : ¬ specTDivider AB CD = 0 := hd
    simp only [calculateIntersection, specCalculateIntersection, if_neg hd']
    have ht : specTNumerator AB CD = tNumerator AB CD := rfl
    have htd : specTDivider AB CD = tDivider AB CD := rfl
    have hun : specUNumerator AB CD = uNumerator AB CD := rfl
    have hud : specUDivider AB CD = uDivider AB CD := rfl
    rw [ht, htd, hun, hud]
    simp [hd]

/-- C4: every accepted intersection point is the pair obtained by
interpolating along AB with t, on both coordinates; the point is never
built from u on CD. -/
theorem accepted_point_interpolates_AB_with_t (AB CD : Segment) (p : Point)
    (h : calculateIntersection AB CD = some p) :
    p = ⟨lerp AB.1.x AB.2.x (tNumerator AB CD / tDivider AB CD),
         lerp AB.1.y AB.2.y (tNumerator AB CD / tDivider AB CD)⟩ :=
  ((calculateIntersection_eq_some_iff AB CD p).mp h).2

/-- Witness for C4: the crossing example AB = (0,0)-(10,10),
CD = (0,10)-(10,0) is accepted with value (5,5), and that point is the
interpolation along AB with t. -/
theorem accepted_point_interpolates_AB_with_t_witness :
    calculateIntersection (⟨0, 0⟩, ⟨10, 10⟩) (⟨0, 10⟩, ⟨10, 0⟩) = some ⟨5, 5⟩ ∧
    (⟨5, 5⟩ : Point) =
      ⟨lerp 0 10 (tNumerator (⟨0, 0⟩, ⟨10, 10⟩) (⟨0, 10⟩, ⟨10, 0⟩) /
          tDivider (⟨0, 0⟩, ⟨10, 10⟩) (⟨0, 10⟩, ⟨10, 0⟩)),
       lerp 0 10 (tNumerator (⟨0, 0⟩, ⟨10, 10⟩) (⟨0, 10⟩, ⟨10, 0⟩) /
          tDivider (⟨0, 0⟩, ⟨10, 10⟩) (⟨0, 10⟩, ⟨10, 0⟩))⟩ := by
  have h : calculateIntersection (⟨0, 0⟩, ⟨10, 10⟩) (⟨0, 10⟩, ⟨10, 0⟩) = some ⟨5, 5⟩ := by
    norm_num [calculateIntersection, tNumerator, tDivider, uNumerator, uDivider, lerp]
  exact ⟨h, accepted_point_interpolates_AB_with_t _ _ _ h⟩

/-- C5: lerp a b t is a + (b - a) * t for all rational inputs, with no
restriction on t, and the concrete evaluations of the spec hold:
lerp 0 10 (1/2) = 5, lerp 0 10 0 = 0, lerp 0 10 1 = 10, and the
extrapolation lerp 0 10 2 = 20. -/
theorem lerp_formula_and_examples :
    (∀ a b t : ℚ, lerp a b t = a + (b - a) * t) ∧
    lerp 0 10 (1 / 2) = 5 ∧ lerp 0 10 0 = 0 ∧ lerp 0 10 1 = 10 ∧ lerp 0 10 2 = 20 := by
  refine ⟨fun a b t => rfl, ?_, ?_, ?_, ?_⟩ <;> norm_num [lerp]

/-- C6: the crossing segments AB = (0,0)-(10,10) and CD = (0,10)-(10,0)
intersect at (5,5). -/
theorem crossing_example_returns_five_five :
    calculateIntersection (⟨0, 0⟩, ⟨10, 10⟩) (⟨0, 10⟩, ⟨10, 0⟩) = some ⟨5, 5⟩ := by
  norm_num [calculateIntersection, tNumerator, tDivider, uNumerator, uDivider, lerp]

/-- C8, counterexample: the claim asserts that for a degenerate AB with
both endpoints at (0,0) there are segments CD making tDivider nonzero;
in fact no such CD exists, the expression vanishes for every choice of C
and D. -/
theorem degenerate_AB_nonzero_tDivider_impossible :
    ¬ ∃ C D : Point, tDivider (⟨0, 0⟩, ⟨0, 0⟩) (C, D) ≠ 0 := by
  rintro ⟨C, D, h⟩
  apply h
  simp only [tDivider]
  ring

/-- C8, amended: when AB is degenerate (both endpoints equal), the
tDivider expression evaluates to zero for every segment CD, regardless
of the orientation of CD. -/
theorem degenerate_AB_tDivider_always_zero (P : Point) (CD : Segment) :
    tDivider (P, P) CD = 0 := by
  simp only [tDivider]
  ring

/-- C9: whenever calculateIntersection accepts an intersection, the
point interpolated along AB with t equals the point interpolated along
CD with u, on both coordinates, over exact arithmetic. -/
theorem accepted_interpolants_agree_on_AB_and_CD (AB CD : Segment) (p : Point)
    (h : calculateIntersection AB CD = some p) :
    lerp AB.1.x AB.2.x (tNumerator AB CD / tDivider AB CD) =
      lerp CD.1.x CD.2.x (uNumerator AB CD / uDivider AB CD) ∧
    lerp AB.1.y AB.2.y (tNumerator AB CD / tDivider AB CD) =
      lerp CD.1.y CD.2.y (uNumerator AB CD / uDivider AB CD) := by
  have hd : tDivider AB CD ≠ 0 :=
    (((calculateIntersection_eq_some_iff AB CD p).mp h).1).2.2.2.2
  have hu := uDivider_eq_tDivider AB CD
  constructor <;>
  · simp only [lerp, hu]
    field_simp
    simp only [tNumerator, tDivider, uNumerator]
    ring

/-- Witness for C9: at the crossing example AB = (0,0)-(10,10),
CD = (0,10)-(10,0), both interpolants agree on both coordinates. -/
theorem accepted_interpolants_agree_on_AB_and_CD_witness :
    lerp 0 10 (tNumerator (⟨0, 0⟩, ⟨10, 10⟩) (⟨0, 10⟩, ⟨10, 0⟩) /
        tDivider (⟨0, 0⟩, ⟨10, 10⟩) (⟨0, 10⟩, ⟨10, 0⟩)) =
      lerp 0 10 (uNumerator (⟨0, 0⟩, ⟨10, 10⟩) (⟨0, 10⟩, ⟨10, 0⟩) /
        uDivider (⟨0, 0⟩, ⟨10, 10⟩) (⟨0, 10⟩, ⟨10, 0⟩)) ∧
    lerp 0 10 (tNumerator (⟨0, 0⟩, ⟨10, 10⟩) (⟨0, 10⟩, ⟨10, 0⟩) /
        tDivider (⟨0, 0⟩, ⟨10, 10⟩) (⟨0, 10⟩, ⟨10, 0⟩)) =
      lerp 10 0 (uNumerator (⟨0, 0⟩, ⟨10, 10⟩) (⟨0, 10⟩, ⟨10, 0⟩) /
        uDivider (⟨0, 0⟩, ⟨10, 10⟩) (⟨0, 10⟩, ⟨10, 0⟩)) := by
  have h : calculateIntersection (⟨0, 0⟩, ⟨10, 10⟩) (⟨0, 10⟩, ⟨10, 0⟩) = some ⟨5, 5⟩ := by
    norm_num [calculateIntersection, tNumerator, tDivider, uNumerator, uDivider, lerp]
  exact accepted_interpolants_agree_on_AB_and_CD _ _ _ h

/-- C10: the uDivider expression of calculateIntersection is equal to
its tDivider expression on every input, being the same sum of eight
signed coordinate products; consequently uDivider vanishes exactly when
tDivider does, so a zero uDivider with a nonzero tDivider is impossible
over exact arithmetic. -/
theorem uDivider_always_equals_tDivider (AB CD : Segment) :
    uDivider AB CD = tDivider AB CD ∧ (uDivider AB CD = 0 ↔ tDivider AB CD = 0) := by
  have h := uDivider_eq_tDivider AB CD
  exact ⟨h, by rw [h]⟩

end SegmentIntersection
